import Mathlib

/-!
Shallow embedding of the two Python sources of this repository:
`src/Solution/main.py` and `src/Task1_PPTX_report/main.py`.

Both scripts read a JSON configuration describing a sequence of slides
and build a presentation.  The two files are line-for-line identical in
observable behaviour except for `generate_list_slide`: the `Solution`
variant validates each list item (raising `ValueError` on a malformed
item) while the `Task1_PPTX_report` variant indexes the item directly
(raising `KeyError`/`TypeError`).  Logging calls and the success
`print` have no observable effect on the produced presentation and are
not modelled.

Modelling conventions:
* JSON values parsed by `json.load` are the inductive `JsonVal`.
* Python exceptions relevant to the control flow are `PyErr`; fallible
  code returns `Except PyErr _`.
* The ambient world (the file system probed by `os.path.isfile`, the
  pixel dimensions the pptx library reads from an image file, the
  dimensions of the matplotlib raster, and the parsed content of the
  fixed `sample.dat` file) is an explicit `Env` record.
* The pptx library's slide objects are modelled by the `Slide`
  inductive, which records exactly the data the scripts store into
  them (titles, body text, paragraphs with levels, picture placement).
  Values taken from the configuration are stored as the raw `JsonVal`
  the script assigned; the library's own type checks on assignment are
  outside the repository and are not modelled.
* `presentation.save("output.pptx")` is the last statement of
  `generate_presentation` and every error propagates past it, so the
  written output file is modelled as `Except.toOption` of the run.
-/

/-- A JSON value as produced by Python's `json.load`.  Objects are
association lists; `json.load` keeps the last duplicate key, so the
objects built from real configurations have pairwise distinct keys and
`lookupKey` (first match) agrees with Python's dict lookup. -/
inductive JsonVal where
  | str (s : String)
  | num (n : Int)
  | bool (b : Bool)
  | null
  | arr (xs : List JsonVal)
  | obj (kvs : List (String × JsonVal))

/-- The Python exceptions the scripts can raise, abstracted to the
information the control flow distinguishes. -/
inductive PyErr where
  /-- `KeyError` from `d[k]` on a dict missing `k`. -/
  | keyError (key : String)
  /-- `TypeError` from indexing or iterating a value of the wrong type. -/
  | typeError
  /-- `ValueError("Invalid list item format. ...")` raised by
  `Solution.generate_list_slide`. -/
  | valueErrorListItem
  /-- `ValueError(f"Invalid slide type: {slide_type}")` raised by the
  dispatcher's `else` branch. -/
  | valueErrorSlideType (t : JsonVal)
  /-- An I/O failure (`OSError`/`FileNotFoundError`) while reading an
  image or data file. -/
  | osError
  /-- `argparse.ArgumentTypeError` raised by `validate_json_file`. -/
  | argumentTypeError (path : String)

/-- First-match lookup in an association list (Python dict lookup,
given the distinct keys `json.load` guarantees). -/
def lookupKey : List (String × JsonVal) → String → Option JsonVal
  | [], _ => none
  | (k, v) :: rest, key => if k = key then some v else lookupKey rest key

/-- Python `v[k]` for a string key: a dict either yields the value or
raises `KeyError`; any non-dict raises `TypeError`. -/
def JsonVal.getItem : JsonVal → String → Except PyErr JsonVal
  | .obj kvs, key =>
    match lookupKey kvs key with
    | some v => .ok v
    | none => .error (.keyError key)
  | _, _ => .error .typeError

/-- Python `v.get(k, default)` on the dicts the scripts call it on. -/
def JsonVal.pyGet (v : JsonVal) (key : String) (dflt : JsonVal) : JsonVal :=
  match v with
  | .obj kvs =>
    match lookupKey kvs key with
    | some w => w
    | none => dflt
  | _ => dflt

/-- Python `isinstance(v, dict)`. -/
def JsonVal.isObj : JsonVal → Bool
  | .obj _ => true
  | _ => false

/-- Python `k in v` for a dict `v` (`False` on non-dicts, where the
scripts guard with `isinstance` first). -/
def JsonVal.hasKey (v : JsonVal) (key : String) : Bool :=
  match v with
  | .obj kvs => (lookupKey kvs key).isSome
  | _ => false

/-- Python `v == s` for a string literal `s`. -/
def JsonVal.isStr (v : JsonVal) (s : String) : Bool :=
  match v with
  | .str t => t = s
  | _ => false

/-- Python `for x in v`: lists yield elements, strings yield their
characters, dicts yield their keys, and other values raise
`TypeError`. -/
def pyIter : JsonVal → Except PyErr (List JsonVal)
  | .arr xs => .ok xs
  | .str s => .ok (s.data.map fun c => .str (String.singleton c))
  | .obj kvs => .ok (kvs.map fun kv => .str kv.1)
  | _ => .error .typeError

/-- One paragraph of a list slide's body: the values the script stores
into `p.text` and `p.level`. -/
structure Paragraph where
  text : JsonVal
  level : JsonVal

/-- What `generate_picture_slide` receives as its picture argument:
either the `content` value from the configuration (a file path) or the
in-memory `BytesIO` plot image built by `generate_plot_slide`
(determined by the plotted data and axis labels). -/
inductive PicInput where
  | path (v : JsonVal)
  | stream (x y : List Int) (xlabel ylabel : JsonVal)

/-- A rendered slide: the observable data each renderer stores. -/
inductive Slide where
  | title (titleText content : JsonVal)
  | text (titleText content : JsonVal)
  | list (titleText : JsonVal) (paras : List Paragraph)
  | picture (titleText : JsonVal) (src : PicInput) (left top : Int)

/-- `presentation.slide_width` of a default `Presentation()` in EMU. -/
def slideWidth : Int := 9144000

/-- `presentation.slide_height` of a default `Presentation()` in EMU. -/
def slideHeight : Int := 6858000

/-- The ambient world the scripts consult. -/
structure Env where
  /-- `os.path.isfile`. -/
  isFile : String → Bool
  /-- Dimensions (EMU) that `slide.shapes.add_picture` reads from the
  image file at a path, or `none` when the file cannot be opened or
  decoded (`OSError`). -/
  pictureSize : String → Option (Int × Int)
  /-- Dimensions (EMU) of the picture added from the matplotlib
  raster: determined by the fixed `figsize=(6, 4.5)` and the
  rasterizer. -/
  plotSize : Int × Int
  /-- Result of `read_data_from_dat_file('sample.dat')`: the two
  equal-length columns of the semicolon-delimited table, or the
  `OSError`/`ValueError` `np.loadtxt` raises.  The numeric values play
  no role in any claim, so the floats are represented abstractly by
  `Int` tokens. -/
  sampleDat : Except PyErr (List Int × List Int)

/-- Python `s.lower()` on the file paths involved (character-wise
lowercasing; `Char.toLower` matches Python on ASCII). -/
def pyLower (s : String) : String :=
  String.mk (s.data.map Char.toLower)

/-- Python `s.endswith(suffix)` on character lists. -/
def listEndsWith (s suffix : List Char) : Bool :=
  decide (suffix.length ≤ s.length) && s.drop (s.length - suffix.length) == suffix

/-- Python `s.endswith(suffix)`. -/
def pyEndsWith (s suffix : String) : Bool :=
  listEndsWith s.data suffix.data

/-- `validate_json_file` (identical in both files):
`if not file_path.lower().endswith('.json') or not os.path.isfile(file_path)`
raise `argparse.ArgumentTypeError`, else return the path. -/
def validate_json_file (env : Env) (file_path : String) : Except PyErr String :=
  if !(pyEndsWith (pyLower file_path) ".json") || !(env.isFile file_path) then
    .error (.argumentTypeError file_path)
  else
    .ok file_path

/-- `generate_title_slide`: stores `title` and `content` into the
title-layout slide.  Identical in both files. -/
def generate_title_slide (titleText content : JsonVal) : Slide :=
  .title titleText content

/-- `generate_text_slide`: stores `title` and `content` into the
text-layout slide.  Identical in both files. -/
def generate_text_slide (titleText content : JsonVal) : Slide :=
  .text titleText content

/-- `generate_picture_slide` (identical placement logic in both files;
the `Solution` variant's extra `log_picture` flag only gates a log
line).  For a path from the configuration the image must be a string
path to a readable image; the pptx library reads its dimensions, and
the script recenters it with Python floor division `//`:
`left = (slide_width - picture_width) // 2`,
`top = (slide_height - picture_height) // 2`. -/
def generate_picture_slide (env : Env) (titleText : JsonVal) (pic : PicInput) :
    Except PyErr Slide :=
  match pic with
  | .path (.str p) =>
    match env.pictureSize p with
    | some (w, h) =>
      .ok (.picture titleText (.path (.str p))
        (Int.fdiv (slideWidth - w) 2) (Int.fdiv (slideHeight - h) 2))
    | none => .error .osError
  | .path _ => .error .typeError
  | .stream x y xl yl =>
    .ok (.picture titleText (.stream x y xl yl)
      (Int.fdiv (slideWidth - env.plotSize.1) 2)
      (Int.fdiv (slideHeight - env.plotSize.2) 2))

/-- `generate_plot_slide` (identical in both files): builds the plot
(`plt.plot` cannot fail on the equal-length columns `np.loadtxt`
returns), looks up `configuration["x-label"]` then
`configuration["y-label"]` (each a possible `KeyError`/`TypeError`),
rasterizes to an in-memory image, and hands it to
`generate_picture_slide`. -/
def generate_plot_slide (env : Env) (titleText : JsonVal) (x y : List Int)
    (configuration : JsonVal) : Except PyErr Slide := do
  let xl ← configuration.getItem "x-label"
  let yl ← configuration.getItem "y-label"
  generate_picture_slide env titleText (.stream x y xl yl)

namespace Solution

/-- The loop body of `Solution.generate_list_slide`: for each item,
`if not isinstance(item, dict) or 'level' not in item or 'text' not in item`
raise `ValueError`, else append a paragraph with `item["text"]` and
`item["level"]`.  (Paragraphs appended before a failing item stay on
the in-memory slide, but the exception aborts the run before the
presentation is saved, so they are unobservable.) -/
def addParagraphs : List JsonVal → Except PyErr (List Paragraph)
  | [] => .ok []
  | item :: rest =>
    if !item.isObj || !(item.hasKey "level") || !(item.hasKey "text") then
      .error .valueErrorListItem
    else do
      let t ← item.getItem "text"
      let l ← item.getItem "level"
      let ps ← addParagraphs rest
      .ok ({ text := t, level := l } :: ps)

/-- `Solution.generate_list_slide`: iterate `items` (a `for` loop, so a
non-iterable raises `TypeError`) and build one paragraph per item. -/
def generate_list_slide (titleText items : JsonVal) : Except PyErr Slide := do
  let xs ← pyIter items
  let ps ← addParagraphs xs
  .ok (.list titleText ps)

end Solution

namespace Task1

/-- The loop body of `Task1_PPTX_report.generate_list_slide`: no
validation, `p.text = item["text"]; p.level = item["level"]` raising
`KeyError`/`TypeError` on a malformed item. -/
def addParagraphs : List JsonVal → Except PyErr (List Paragraph)
  | [] => .ok []
  | item :: rest => do
    let t ← item.getItem "text"
    let l ← item.getItem "level"
    let ps ← addParagraphs rest
    .ok ({ text := t, level := l } :: ps)

/-- `Task1_PPTX_report.generate_list_slide`. -/
def generate_list_slide (titleText items : JsonVal) : Except PyErr Slide := do
  let xs ← pyIter items
  let ps ← addParagraphs xs
  .ok (.list titleText ps)

end Task1

/-- The body of the dispatch loop of `generate_presentation`,
parameterised by the `generate_list_slide` variant (the only point
where the two files differ observably).  Mirrors the source order:
`slide_config["type"]`, `slide_config["title"]`,
`slide_config.get("content")`, `slide_config.get("configuration", {})`,
`slide_config.get("content", [])`, then the `if`/`elif` chain on
`slide_type`, whose `else` raises `ValueError`.  A `plot` slide first
runs `read_data_from_dat_file('sample.dat')`. -/
def renderSlideWith (listSlide : JsonVal → JsonVal → Except PyErr Slide)
    (env : Env) (slide_config : JsonVal) : Except PyErr Slide := do
  let slide_type ← slide_config.getItem "type"
  let titleText ← slide_config.getItem "title"
  let content := slide_config.pyGet "content" JsonVal.null
  let configuration := slide_config.pyGet "configuration" (JsonVal.obj [])
  let items := slide_config.pyGet "content" (JsonVal.arr [])
  if slide_type.isStr "title" then
    .ok (generate_title_slide titleText content)
  else if slide_type.isStr "text" then
    .ok (generate_text_slide titleText content)
  else if slide_type.isStr "list" then
    listSlide titleText items
  else if slide_type.isStr "picture" then
    generate_picture_slide env titleText (.path content)
  else if slide_type.isStr "plot" then do
    let xy ← env.sampleDat
    generate_plot_slide env titleText xy.1 xy.2 configuration
  else
    .error (.valueErrorSlideType slide_type)

/-- The `for slide_config in config["presentation"]` loop: renders each
descriptor in order, the first exception aborting the loop. -/
def buildSlidesWith (listSlide : JsonVal → JsonVal → Except PyErr Slide)
    (env : Env) : List JsonVal → Except PyErr (List Slide)
  | [] => .ok []
  | d :: ds => do
    let s ← renderSlideWith listSlide env d
    let rest ← buildSlidesWith listSlide env ds
    .ok (s :: rest)

/-- `generate_presentation` applied to the already-parsed configuration
value (reading and `json.load`-ing the file precede this and their
failures also abort the run): look up `config["presentation"]`, iterate
it rendering one slide per descriptor, and only then
`presentation.save("output.pptx")`. -/
def generatePresentationWith (listSlide : JsonVal → JsonVal → Except PyErr Slide)
    (env : Env) (config : JsonVal) : Except PyErr (List Slide) := do
  let pres ← config.getItem "presentation"
  let descs ← pyIter pres
  buildSlidesWith listSlide env descs

/-- `Solution.generate_presentation` on a parsed configuration. -/
def Solution.generatePresentation (env : Env) (config : JsonVal) :
    Except PyErr (List Slide) :=
  generatePresentationWith Solution.generate_list_slide env config

/-- `Task1_PPTX_report.generate_presentation` on a parsed configuration. -/
def Task1.generatePresentation (env : Env) (config : JsonVal) :
    Except PyErr (List Slide) :=
  generatePresentationWith Task1.generate_list_slide env config

/-- The contents of `output.pptx` after a run of the `Solution`
variant: `presentation.save` is the final statement, executed only when
no exception was raised, so the file holds the slide list exactly when
the run succeeded. -/
def Solution.savedOutput (env : Env) (config : JsonVal) : Option (List Slide) :=
  (Solution.generatePresentation env config).toOption

/-- The contents of `output.pptx` after a run of the
`Task1_PPTX_report` variant. -/
def Task1.savedOutput (env : Env) (config : JsonVal) : Option (List Slide) :=
  (Task1.generatePresentation env config).toOption

/-- The paragraph a well-formed list item (a dict with `level` and
`text` keys) is rendered to: `p.text = item["text"]`,
`p.level = item["level"]`. -/
def expectedParagraph (item : JsonVal) : Paragraph :=
  { text := item.pyGet "text" JsonVal.null, level := item.pyGet "level" JsonVal.null }

/-! Concrete sample data used to instantiate the theorems below. -/

/-- A sample world: one configuration file, one readable image of
4000000×3000000 EMU, a readable `sample.dat` with three rows. -/
def envW : Env where
  isFile := fun p => p == "config.json"
  pictureSize := fun p => if p == "img.png" then some (4000000, 3000000) else none
  plotSize := (5715000, 4286250)
  sampleDat := .ok ([0, 1, 2], [10, 20, 30])

/-- `envW` with a different file-system probe (used to instantiate
determinism across worlds that agree on the inputs rendering reads). -/
def envW2 : Env where
  isFile := fun _ => false
  pictureSize := envW.pictureSize
  plotSize := envW.plotSize
  sampleDat := envW.sampleDat

/-- A world where only `A.JSON` exists. -/
def envCE : Env where
  isFile := fun p => p == "A.JSON"
  pictureSize := fun _ => none
  plotSize := (0, 0)
  sampleDat := .error .osError

/-- `{"type": "title", "title": "T", "content": "C"}` -/
def descTitleW : JsonVal :=
  .obj [("type", .str "title"), ("title", .str "T"), ("content", .str "C")]

/-- `{"type": "text", "title": "U", "content": "B"}` -/
def descTextW : JsonVal :=
  .obj [("type", .str "text"), ("title", .str "U"), ("content", .str "B")]

/-- `{"type": "foo", "title": "X"}` — an unrecognized slide type. -/
def descFooW : JsonVal :=
  .obj [("type", .str "foo"), ("title", .str "X")]

/-- `{"type": "plot", "title": "P"}` — a plot slide with the
`configuration` mapping absent. -/
def descPlotW : JsonVal :=
  .obj [("type", .str "plot"), ("title", .str "P")]

/-- The two well-formed list items `[{level:0,text:"A"},{level:1,text:"B"}]`. -/
def itemsABW : JsonVal :=
  .arr [.obj [("level", .num 0), ("text", .str "A")],
        .obj [("level", .num 1), ("text", .str "B")]]

/-- A list whose second item lacks the `text` key. -/
def itemsBadW : JsonVal :=
  .arr [.obj [("level", .num 0), ("text", .str "A")],
        .obj [("level", .num 1)]]

/-- `{"type": "list", "title": "L", "content": <itemsBadW>}` -/
def descBadListW : JsonVal :=
  .obj [("type", .str "list"), ("title", .str "L"), ("content", itemsBadW)]

/-- A valid two-slide configuration. -/
def configW : JsonVal := .obj [("presentation", .arr [descTitleW, descTextW])]

/-- A configuration whose second descriptor has the unrecognized type. -/
def configBadTypeW : JsonVal := .obj [("presentation", .arr [descTitleW, descFooW])]

/-- A configuration with one malformed list slide. -/
def configBadListW : JsonVal := .obj [("presentation", .arr [descBadListW])]

/-- A configuration with one plot slide lacking axis labels. -/
def configPlotW : JsonVal := .obj [("presentation", .arr [descPlotW])]

/-- The slides `configW` renders to. -/
def slidesW : List Slide :=
  [.title (.str "T") (.str "C"), .text (.str "U") (.str "B")]

/-! Helper lemmas. -/

/-- Unfolding `Except` bind on a success. -/
@[simp] theorem pyBind_ok {α β : Type} (a : α) (f : α → Except PyErr β) :
    (Except.ok a >>= f : Except PyErr β) = f a := rfl

/-- Unfolding `Except` bind on an error. -/
@[simp] theorem pyBind_error {α β : Type} (e : PyErr) (f : α → Except PyErr β) :
    (Except.error e >>= f : Except PyErr β) = Except.error e := rfl

/-- An `ok` result is never an `error`. -/
theorem pyOk_ne_error {α : Type} (a : α) (e : PyErr) :
    (Except.ok a : Except PyErr α) ≠ Except.error e := by
  intro h; cases h

/-- A dict containing a key yields its `pyGet` value on indexing. -/
theorem hasKey_getItem {v : JsonVal} {k : String} (h : v.hasKey k = true)
    (d : JsonVal) : v.getItem k = .ok (v.pyGet k d) := by
  cases v with
  | obj kvs =>
    rcases hl : lookupKey kvs k with _ | w
    · simp [JsonVal.hasKey, hl] at h
    · simp [JsonVal.getItem, JsonVal.pyGet, hl]
  | str s => simp [JsonVal.hasKey] at h
  | num n => simp [JsonVal.hasKey] at h
  | bool b => simp [JsonVal.hasKey] at h
  | null => simp [JsonVal.hasKey] at h
  | arr xs => simp [JsonVal.hasKey] at h

/-- Successful indexing means: the value is a dict, it has the key, and
`pyGet` returns the same value. -/
theorem getItem_ok_spec {v w : JsonVal} {k : String} (d : JsonVal)
    (h : v.getItem k = .ok w) :
    v.isObj = true ∧ v.hasKey k = true ∧ v.pyGet k d = w := by
  cases v
  case obj kvs =>
    rcases hl : lookupKey kvs k with _ | u
    · simp [JsonVal.getItem, hl] at h
    · simp [JsonVal.getItem, hl] at h
      refine ⟨rfl, ?_, ?_⟩ <;> simp [JsonVal.hasKey, JsonVal.pyGet, hl, h]
  all_goals simp [JsonVal.getItem] at h

/-- Indexing a dict that lacks the key raises `KeyError`. -/
theorem hasKey_false_getItem {v : JsonVal} {k : String} (hobj : v.isObj = true)
    (h : v.hasKey k = false) : v.getItem k = .error (.keyError k) := by
  cases v
  case obj kvs =>
    rcases hl : lookupKey kvs k with _ | w
    · simp [JsonVal.getItem, hl]
    · simp [JsonVal.hasKey, hl] at h
  all_goals simp [JsonVal.isObj] at hobj

/-- A value that compares equal to the string `s` is the string `s`. -/
theorem isStr_eq {v : JsonVal} {s : String} (h : v.isStr s = true) :
    v = .str s := by
  cases v
  case str t => simp [JsonVal.isStr] at h; rw [h]
  all_goals simp [JsonVal.isStr] at h

/-- A successful run of the dispatch loop yields one slide per
descriptor, in input order. -/
theorem buildSlides_ok_spec {f : JsonVal → JsonVal → Except PyErr Slide}
    {env : Env} : ∀ {ds : List JsonVal} {ss : List Slide},
    buildSlidesWith f env ds = .ok ss →
    ss.length = ds.length ∧
      ∀ i (h1 : i < ds.length) (h2 : i < ss.length),
        renderSlideWith f env (ds.get ⟨i, h1⟩) = .ok (ss.get ⟨i, h2⟩) := by
  intro ds
  induction ds with
  | nil =>
    intro ss h
    simp [buildSlidesWith] at h
    subst h
    exact ⟨rfl, fun i h1 h2 => absurd h1 (by simp)⟩
  | cons d ds ih =>
    intro ss h
    simp only [buildSlidesWith] at h
    cases hr : renderSlideWith f env d with
    | error e => rw [hr] at h; simp at h
    | ok s =>
      rw [hr] at h
      rw [pyBind_ok] at h
      cases hb : buildSlidesWith f env ds with
      | error e => rw [hb] at h; simp at h
      | ok rest =>
        rw [hb] at h
        rw [pyBind_ok] at h
        simp at h
        subst h
        obtain ⟨hlen, hidx⟩ := ih hb
        refine ⟨by simp [hlen], ?_⟩
        intro i h1 h2
        cases i with
        | zero => simpa using hr
        | succ j => simpa using hidx j (by simpa using h1) (by simpa using h2)

/-- If any descriptor in the list fails to render, the whole loop
fails (the first exception aborts the run). -/
theorem buildSlides_member_error {f : JsonVal → JsonVal → Except PyErr Slide}
    {env : Env} {d : JsonVal} {e : PyErr} :
    ∀ {ds : List JsonVal}, d ∈ ds →
    renderSlideWith f env d = .error e →
    ∃ e2, buildSlidesWith f env ds = .error e2 := by
  intro ds
  induction ds with
  | nil => intro hd _; exact absurd hd (List.not_mem_nil d)
  | cons a ds ih =>
    intro hd herr
    rcases List.mem_cons.mp hd with rfl | hmem
    · exact ⟨e, by simp [buildSlidesWith, herr]⟩
    · cases hr : renderSlideWith f env a with
      | error e3 => exact ⟨e3, by simp [buildSlidesWith, hr]⟩
      | ok s =>
        obtain ⟨e2, hb⟩ := ih hmem herr
        exact ⟨e2, by simp [buildSlidesWith, hr, hb]⟩

/-- A descriptor whose `type` value is none of the five recognized
strings makes the dispatcher fail: with `ValueError` from the `else`
branch when the `title` lookup succeeds, and in any case with some
exception. -/
theorem renderSlide_bad_type {f : JsonVal → JsonVal → Except PyErr Slide}
    {env : Env} {d t : JsonVal}
    (ht : d.getItem "type" = .ok t)
    (hbad : (t.isStr "title" || t.isStr "text" || t.isStr "list" ||
             t.isStr "picture" || t.isStr "plot") = false) :
    (∀ ttl, d.getItem "title" = .ok ttl →
      renderSlideWith f env d = .error (.valueErrorSlideType t)) ∧
    ∃ e, renderSlideWith f env d = .error e := by
  simp only [Bool.or_eq_false_iff] at hbad
  obtain ⟨⟨⟨⟨h1, h2⟩, h3⟩, h4⟩, h5⟩ := hbad
  have hmain : ∀ ttl, d.getItem "title" = .ok ttl →
      renderSlideWith f env d = .error (.valueErrorSlideType t) := by
    intro ttl httl
    simp [renderSlideWith, ht, httl, h1, h2, h3, h4, h5]
  refine ⟨hmain, ?_⟩
  cases httl : d.getItem "title" with
  | error e => exact ⟨e, by simp [renderSlideWith, ht, httl]⟩
  | ok ttl => exact ⟨_, hmain ttl httl⟩

/-- A malformed item anywhere in the list makes the `Solution` list
loop raise its `ValueError`: earlier well-formed items only append
paragraphs and the loop continues until the malformed one. -/
theorem addParagraphsSol_bad_item {item : JsonVal}
    (hbad : (!item.isObj || !(item.hasKey "level") || !(item.hasKey "text")) =
      true) :
    ∀ {xs : List JsonVal}, item ∈ xs →
      Solution.addParagraphs xs = .error .valueErrorListItem := by
  intro xs
  induction xs with
  | nil => intro h; exact absurd h (List.not_mem_nil item)
  | cons a rest ih =>
    intro hmem
    rcases List.mem_cons.mp hmem with rfl | hmem
    · simp [Solution.addParagraphs, hbad]
    · cases hc : (!a.isObj || !(a.hasKey "level") || !(a.hasKey "text")) with
      | true => simp [Solution.addParagraphs, hc]
      | false =>
        simp only [Bool.or_eq_false_iff, Bool.not_eq_false'] at hc
        obtain ⟨⟨h1, h2⟩, h3⟩ := hc
        simp [Solution.addParagraphs, h1, h2, h3,
          hasKey_getItem h2 JsonVal.null, hasKey_getItem h3 JsonVal.null,
          ih hmem]

/-- A malformed item makes `Solution.generate_list_slide` fail with the
`ValueError`. -/
theorem generate_list_slideSol_bad_item (titleText itemsVal : JsonVal)
    {items : List JsonVal} {item : JsonVal}
    (hiter : pyIter itemsVal = .ok items) (hmem : item ∈ items)
    (hbad : (!item.isObj || !(item.hasKey "level") || !(item.hasKey "text")) =
      true) :
    Solution.generate_list_slide titleText itemsVal =
      .error .valueErrorListItem := by
  simp [Solution.generate_list_slide, hiter, addParagraphsSol_bad_item hbad hmem]

/-- On a descriptor of type `list` (with a `title`), the dispatcher
reduces to the list renderer applied to
`slide_config.get("content", [])`. -/
theorem renderSlide_list {f : JsonVal → JsonVal → Except PyErr Slide}
    {env : Env} {d t ttl : JsonVal}
    (ht : d.getItem "type" = .ok t) (hlist : t.isStr "list" = true)
    (httl : d.getItem "title" = .ok ttl) :
    renderSlideWith f env d = f ttl (d.pyGet "content" (JsonVal.arr [])) := by
  obtain rfl := isStr_eq hlist
  simp [renderSlideWith, ht, httl,
    show (JsonVal.str "list").isStr "title" = false from rfl,
    show (JsonVal.str "list").isStr "text" = false from rfl,
    show (JsonVal.str "list").isStr "list" = true from rfl]

/-- The `Solution` list loop on all-well-formed items appends exactly
the expected paragraph of each item, in input order. -/
theorem addParagraphsSol_all_ok : ∀ {xs : List JsonVal},
    (∀ item ∈ xs,
      (item.isObj && item.hasKey "level" && item.hasKey "text") = true) →
    Solution.addParagraphs xs = .ok (xs.map expectedParagraph) := by
  intro xs
  induction xs with
  | nil => intro _; rfl
  | cons a rest ih =>
    intro hall
    have ha := hall a (List.mem_cons_self a rest)
    simp only [Bool.and_eq_true] at ha
    obtain ⟨⟨h1, h2⟩, h3⟩ := ha
    have hrest := ih (fun item hm => hall item (List.mem_cons_of_mem a hm))
    simp [Solution.addParagraphs, h1, h2, h3,
      hasKey_getItem h2 JsonVal.null, hasKey_getItem h3 JsonVal.null, hrest,
      expectedParagraph]

/-- Claim C1: for every valid configuration (one on which the run
succeeds), `generate_presentation` adds exactly one slide per slide
descriptor, and the slides appear in the output in the same order as
the descriptors in the `presentation` sequence: the `i`-th output
slide is the one the dispatcher renders from the `i`-th descriptor. -/
theorem generate_presentation_one_slide_per_descriptor
    (env : Env) (config pres : JsonVal) (descs : List JsonVal)
    (slides : List Slide)
    (hp : config.getItem "presentation" = Except.ok pres)
    (hi : pyIter pres = Except.ok descs)
    (hrun : Solution.generatePresentation env config = Except.ok slides) :
    slides.length = descs.length ∧
      ∀ i (h1 : i < descs.length) (h2 : i < slides.length),
        renderSlideWith Solution.generate_list_slide env (descs.get ⟨i, h1⟩) =
          Except.ok (slides.get ⟨i, h2⟩) := by
  have hb : buildSlidesWith Solution.generate_list_slide env descs =
      Except.ok slides := by
    simpa [Solution.generatePresentation, generatePresentationWith, hp, hi]
      using hrun
  exact buildSlides_ok_spec hb

/-- Witness for C1: the concrete two-descriptor configuration `configW`
renders to exactly two slides. -/
theorem generate_presentation_one_slide_per_descriptor_witness :
    slidesW.length = ([descTitleW, descTextW] : List JsonVal).length :=
  (generate_presentation_one_slide_per_descriptor envW configW
    (.arr [descTitleW, descTextW]) [descTitleW, descTextW] slidesW
    rfl rfl rfl).1

/-- Claim C2: every picture slide places the image at
`left = (slide_width - image_width) // 2` and
`top = (slide_height - image_height) // 2` (Python floor division),
both for a picture loaded from a path and for the in-memory plot
image. -/
theorem picture_slide_centered (env : Env) (titleText : JsonVal) (p : String)
    (w h : Int) (hsize : env.pictureSize p = some (w, h)) :
    generate_picture_slide env titleText (.path (.str p)) =
      Except.ok (.picture titleText (.path (.str p))
        (Int.fdiv (slideWidth - w) 2) (Int.fdiv (slideHeight - h) 2)) ∧
    ∀ (x y : List Int) (xl yl : JsonVal),
      generate_picture_slide env titleText (.stream x y xl yl) =
        Except.ok (.picture titleText (.stream x y xl yl)
          (Int.fdiv (slideWidth - env.plotSize.1) 2)
          (Int.fdiv (slideHeight - env.plotSize.2) 2)) := by
  constructor
  · simp [generate_picture_slide, hsize]
  · intro x y xl yl; rfl

/-- Witness for C2: with slide size 9144000×6858000 and image size
4000000×3000000 the computed placement is `left = 2572000`,
`top = 1929000`. -/
theorem picture_slide_centered_witness :
    envW.pictureSize "img.png" = some (4000000, 3000000) ∧
    generate_picture_slide envW (JsonVal.str "P") (.path (.str "img.png")) =
      Except.ok (.picture (JsonVal.str "P") (.path (.str "img.png"))
        2572000 1929000) := by
  have h := (picture_slide_centered envW (JsonVal.str "P") "img.png"
    4000000 3000000 rfl).1
  exact ⟨rfl, h.trans (by rfl)⟩

/-- Claim C3: a slide descriptor whose `type` is outside
`{title, text, list, picture, plot}` makes `generate_presentation`
raise the invalid-type `ValueError` at that descriptor (when its
`title` lookup succeeds), aborts the whole run with an exception, and
`output.pptx` is not written. -/
theorem invalid_slide_type_aborts
    (env : Env) (config pres : JsonVal) (descs : List JsonVal) (d t : JsonVal)
    (hp : config.getItem "presentation" = Except.ok pres)
    (hi : pyIter pres = Except.ok descs)
    (hd : d ∈ descs)
    (ht : d.getItem "type" = Except.ok t)
    (hbad : (t.isStr "title" || t.isStr "text" || t.isStr "list" ||
             t.isStr "picture" || t.isStr "plot") = false) :
    (∀ ttl, d.getItem "title" = Except.ok ttl →
      renderSlideWith Solution.generate_list_slide env d =
        Except.error (.valueErrorSlideType t)) ∧
    (∃ e, Solution.generatePresentation env config = Except.error e) ∧
    Solution.savedOutput env config = none := by
  obtain ⟨hmain, e0, herr⟩ :=
    @renderSlide_bad_type Solution.generate_list_slide env d t ht hbad
  obtain ⟨e2, hb⟩ := buildSlides_member_error hd herr
  have hgen : Solution.generatePresentation env config = Except.error e2 := by
    simp [Solution.generatePresentation, generatePresentationWith, hp, hi, hb]
  exact ⟨hmain, ⟨e2, hgen⟩, by simp [Solution.savedOutput, hgen, Except.toOption]⟩

/-- Witness for C3: the configuration whose second descriptor has type
`"foo"` leaves `output.pptx` unwritten. -/
theorem invalid_slide_type_aborts_witness :
    Solution.savedOutput envW configBadTypeW = none :=
  (invalid_slide_type_aborts envW configBadTypeW
    (.arr [descTitleW, descFooW]) [descTitleW, descFooW] descFooW (.str "foo")
    rfl rfl (List.mem_cons_of_mem _ (List.mem_cons_self _ _)) rfl rfl).2.2

/-- Claim C4: a list-type slide descriptor with an item that is not a
dict or lacks `level` or `text` makes `Solution.generate_list_slide`
fail with its format `ValueError`, the dispatcher propagates it, the
run aborts, and `output.pptx` is not written. -/
theorem list_item_missing_key_aborts
    (env : Env) (config pres : JsonVal) (descs : List JsonVal)
    (d t ttl itemsVal : JsonVal) (items : List JsonVal) (item : JsonVal)
    (hp : config.getItem "presentation" = Except.ok pres)
    (hi : pyIter pres = Except.ok descs)
    (hd : d ∈ descs)
    (ht : d.getItem "type" = Except.ok t)
    (hlist : t.isStr "list" = true)
    (httl : d.getItem "title" = Except.ok ttl)
    (hitems : d.pyGet "content" (JsonVal.arr []) = itemsVal)
    (hiter : pyIter itemsVal = Except.ok items)
    (hmem : item ∈ items)
    (hbad : (!item.isObj || !(item.hasKey "level") || !(item.hasKey "text")) =
      true) :
    Solution.generate_list_slide ttl itemsVal =
      Except.error .valueErrorListItem ∧
    renderSlideWith Solution.generate_list_slide env d =
      Except.error .valueErrorListItem ∧
    (∃ e, Solution.generatePresentation env config = Except.error e) ∧
    Solution.savedOutput env config = none := by
  have hsl := generate_list_slideSol_bad_item ttl itemsVal hiter hmem hbad
  have hrs : renderSlideWith Solution.generate_list_slide env d =
      Except.error .valueErrorListItem := by
    rw [renderSlide_list ht hlist httl, hitems]; exact hsl
  obtain ⟨e2, hb⟩ := buildSlides_member_error hd hrs
  have hgen : Solution.generatePresentation env config = Except.error e2 := by
    simp [Solution.generatePresentation, generatePresentationWith, hp, hi, hb]
  exact ⟨hsl, hrs, ⟨e2, hgen⟩,
    by simp [Solution.savedOutput, hgen, Except.toOption]⟩

/-- Witness for C4: the configuration whose list slide's second item
lacks `text` aborts with nothing written. -/
theorem list_item_missing_key_aborts_witness :
    Solution.savedOutput envW configBadListW = none :=
  (list_item_missing_key_aborts envW configBadListW (.arr [descBadListW])
    [descBadListW] descBadListW (.str "list") (.str "L") itemsBadW
    [.obj [("level", .num 0), ("text", .str "A")], .obj [("level", .num 1)]]
    (.obj [("level", .num 1)])
    rfl rfl (List.mem_cons_self _ _) rfl rfl rfl rfl rfl
    (List.mem_cons_of_mem _ (List.mem_cons_self _ _)) rfl).2.2.2

/-- Claim C5: a parsed configuration that is a mapping without the
top-level `presentation` key makes `generate_presentation` fail with
`KeyError("presentation")` before any slide is rendered, and
`output.pptx` is not written. -/
theorem missing_presentation_key_aborts (env : Env)
    (kvs : List (String × JsonVal))
    (hmiss : lookupKey kvs "presentation" = none) :
    Solution.generatePresentation env (.obj kvs) =
      Except.error (.keyError "presentation") ∧
    Solution.savedOutput env (.obj kvs) = none := by
  have hg : (JsonVal.obj kvs).getItem "presentation" =
      .error (.keyError "presentation") := by
    simp [JsonVal.getItem, hmiss]
  refine ⟨?_, ?_⟩
  · simp [Solution.generatePresentation, generatePresentationWith, hg]
  · simp [Solution.savedOutput, Solution.generatePresentation,
      generatePresentationWith, hg, Except.toOption]

/-- Witness for C5: a configuration with only a `slides` key fails with
the `presentation` key-error. -/
theorem missing_presentation_key_aborts_witness :
    Solution.generatePresentation envW (.obj [("slides", JsonVal.arr [])]) =
      Except.error (.keyError "presentation") :=
  (missing_presentation_key_aborts envW [("slides", JsonVal.arr [])] rfl).1

/-- Claim C6: a list-type descriptor whose items all are dicts with
`level` and `text` renders to a body with one paragraph per item, in
input order, each carrying the item's `text` and `level` values. -/
theorem list_slide_one_paragraph_per_item (titleText itemsVal : JsonVal)
    (items : List JsonVal)
    (hiter : pyIter itemsVal = Except.ok items)
    (hall : ∀ item ∈ items,
      (item.isObj && item.hasKey "level" && item.hasKey "text") = true) :
    Solution.generate_list_slide titleText itemsVal =
      Except.ok (.list titleText (items.map expectedParagraph)) ∧
    (items.map expectedParagraph).length = items.length ∧
    ∀ i (h1 : i < items.length)
        (h2 : i < (items.map expectedParagraph).length),
      ((items.map expectedParagraph).get ⟨i, h2⟩).text =
        (items.get ⟨i, h1⟩).pyGet "text" JsonVal.null ∧
      ((items.map expectedParagraph).get ⟨i, h2⟩).level =
        (items.get ⟨i, h1⟩).pyGet "level" JsonVal.null := by
  refine ⟨?_, by simp, ?_⟩
  · simp [Solution.generate_list_slide, hiter, addParagraphsSol_all_ok hall]
  · intro i h1 h2
    constructor <;>
      simp [List.get_eq_getElem, List.getElem_map, expectedParagraph]

/-- Witness for C6: items `[{level:0,text:"A"},{level:1,text:"B"}]`
produce exactly the paragraphs `("A", 0)` then `("B", 1)`. -/
theorem list_slide_one_paragraph_per_item_witness :
    Solution.generate_list_slide (JsonVal.str "L") itemsABW =
      Except.ok (.list (JsonVal.str "L")
        [⟨JsonVal.str "A", JsonVal.num 0⟩, ⟨JsonVal.str "B", JsonVal.num 1⟩]) := by
  have h := (list_slide_one_paragraph_per_item (JsonVal.str "L") itemsABW
    [.obj [("level", .num 0), ("text", .str "A")],
     .obj [("level", .num 1), ("text", .str "B")]]
    rfl (by decide)).1
  exact h.trans (by rfl)

/-- Counterexample for C7 as stated: the code lowercases the path
before testing the extension, so the existing file `A.JSON`, whose
name does not end in `.json`, still validates successfully — the
claimed "succeeds exactly when the path ends in `.json` and exists" is
false at this input. -/
theorem validate_json_file_case_counterexample :
    validate_json_file envCE "A.JSON" = Except.ok "A.JSON" ∧
    pyEndsWith "A.JSON" ".json" = false ∧
    envCE.isFile "A.JSON" = true :=
  ⟨rfl, rfl, rfl⟩

/-- Claim C7 (amended): validation succeeds exactly when the path
refers to an existing file and its lowercased form ends in `.json`;
otherwise `validate_json_file` raises the `ArgumentTypeError` that
makes `argparse` exit before any configuration is loaded. -/
theorem validate_json_file_spec (env : Env) (p : String) :
    (validate_json_file env p = Except.ok p ↔
      (pyEndsWith (pyLower p) ".json" = true ∧ env.isFile p = true)) ∧
    (validate_json_file env p = Except.ok p ∨
      validate_json_file env p = Except.error (.argumentTypeError p)) := by
  unfold validate_json_file
  cases h1 : pyEndsWith (pyLower p) ".json" <;>
    cases h2 : env.isFile p <;> simp

/-- Witness for C7: the existing `config.json` validates. -/
theorem validate_json_file_spec_witness :
    validate_json_file envW "config.json" = Except.ok "config.json" :=
  ((validate_json_file_spec envW "config.json").1).mpr ⟨rfl, rfl⟩

/-- The dispatcher never reads the `isFile` probe, and reads the world
only through `pictureSize`, `plotSize` and `sampleDat`. -/
theorem renderSlide_congr (f : JsonVal → JsonVal → Except PyErr Slide)
    {env1 env2 : Env}
    (hpic : env1.pictureSize = env2.pictureSize)
    (hplot : env1.plotSize = env2.plotSize)
    (hdat : env1.sampleDat = env2.sampleDat) (d : JsonVal) :
    renderSlideWith f env1 d = renderSlideWith f env2 d := by
  simp only [renderSlideWith, generate_plot_slide, generate_picture_slide,
    hpic, hplot, hdat]

/-- Claim C8: rendering is deterministic in its inputs — two runs over
worlds that agree on the image dimensions, the plot raster dimensions
and the parsed sample data (the plot image bytes are abstracted into
`plotSize` and the plotted data) produce identical results, hence the
same number and ordering of slides in the output file. -/
theorem run_deterministic (env1 env2 : Env) (config : JsonVal)
    (hpic : env1.pictureSize = env2.pictureSize)
    (hplot : env1.plotSize = env2.plotSize)
    (hdat : env1.sampleDat = env2.sampleDat) :
    Solution.generatePresentation env1 config =
      Solution.generatePresentation env2 config ∧
    Solution.savedOutput env1 config = Solution.savedOutput env2 config := by
  have hb : ∀ ds, buildSlidesWith Solution.generate_list_slide env1 ds =
      buildSlidesWith Solution.generate_list_slide env2 ds := by
    intro ds
    induction ds with
    | nil => rfl
    | cons d rest ih =>
      simp only [buildSlidesWith,
        renderSlide_congr Solution.generate_list_slide hpic hplot hdat d, ih]
  have hg : Solution.generatePresentation env1 config =
      Solution.generatePresentation env2 config := by
    simp only [Solution.generatePresentation, generatePresentationWith]
    cases config.getItem "presentation" with
    | error e => rfl
    | ok pres =>
      rw [pyBind_ok, pyBind_ok]
      cases pyIter pres with
      | error e => rfl
      | ok descs => rw [pyBind_ok, pyBind_ok]; exact hb descs
  exact ⟨hg, by simp [Solution.savedOutput, hg]⟩

/-- Witness for C8: the worlds `envW` and `envW2` differ only in the
file-system probe and render `configW` identically. -/
theorem run_deterministic_witness :
    Solution.generatePresentation envW configW =
      Solution.generatePresentation envW2 configW :=
  (run_deterministic envW envW2 configW rfl rfl rfl).1

/-- An `error` result of indexing a dict is the `KeyError` for that
key. -/
theorem getItem_obj_error {kvs : List (String × JsonVal)} {k : String}
    {e : PyErr} (h : (JsonVal.obj kvs).getItem k = .error e) :
    e = .keyError k := by
  simp only [JsonVal.getItem] at h
  rcases hl : lookupKey kvs k with _ | w <;> rw [hl] at h <;> simp at h
  exact h.symm

/-- On a descriptor of type `plot` (with a `title`), the dispatcher
reads the sample data file and runs the plot renderer on
`slide_config.get("configuration", {})`. -/
theorem renderSlide_plot {f : JsonVal → JsonVal → Except PyErr Slide}
    {env : Env} {d t ttl : JsonVal}
    (ht : d.getItem "type" = .ok t) (hplt : t.isStr "plot" = true)
    (httl : d.getItem "title" = .ok ttl) :
    renderSlideWith f env d =
      (env.sampleDat >>= fun xy =>
        generate_plot_slide env ttl xy.1 xy.2
          (d.pyGet "configuration" (JsonVal.obj []))) := by
  obtain rfl := isStr_eq hplt
  simp [renderSlideWith, ht, httl,
    show (JsonVal.str "plot").isStr "title" = false from rfl,
    show (JsonVal.str "plot").isStr "text" = false from rfl,
    show (JsonVal.str "plot").isStr "list" = false from rfl,
    show (JsonVal.str "plot").isStr "picture" = false from rfl,
    show (JsonVal.str "plot").isStr "plot" = true from rfl]

/-- Claim C9: a plot-type descriptor whose `configuration` mapping is
absent (defaulting to `{}`) or lacks `x-label` or `y-label` makes
`generate_plot_slide` raise a `KeyError` before any picture slide is
produced, and the run aborts with nothing written. -/
theorem plot_missing_label_aborts
    (env : Env) (config pres : JsonVal) (descs : List JsonVal)
    (d t ttl conf : JsonVal) (xy : List Int × List Int)
    (hp : config.getItem "presentation" = Except.ok pres)
    (hi : pyIter pres = Except.ok descs)
    (hd : d ∈ descs)
    (ht : d.getItem "type" = Except.ok t)
    (hplt : t.isStr "plot" = true)
    (httl : d.getItem "title" = Except.ok ttl)
    (hdat : env.sampleDat = Except.ok xy)
    (hconf : d.pyGet "configuration" (JsonVal.obj []) = conf)
    (hobj : conf.isObj = true)
    (hmiss : conf.hasKey "x-label" = false ∨ conf.hasKey "y-label" = false) :
    (generate_plot_slide env ttl xy.1 xy.2 conf =
        Except.error (.keyError "x-label") ∨
      generate_plot_slide env ttl xy.1 xy.2 conf =
        Except.error (.keyError "y-label")) ∧
    (∃ e, Solution.generatePresentation env config = Except.error e) ∧
    Solution.savedOutput env config = none := by
  have hplot_err : generate_plot_slide env ttl xy.1 xy.2 conf =
      Except.error (.keyError "x-label") ∨
      generate_plot_slide env ttl xy.1 xy.2 conf =
        Except.error (.keyError "y-label") := by
    rcases hmiss with hx | hy
    · left
      simp [generate_plot_slide, hasKey_false_getItem hobj hx]
    · cases hlx : conf.getItem "x-label" with
      | error e =>
        left
        obtain ⟨kvs, rfl⟩ : ∃ kvs, conf = .obj kvs := by
          cases conf
          case obj kvs => exact ⟨kvs, rfl⟩
          all_goals simp [JsonVal.isObj] at hobj
        rw [getItem_obj_error hlx] at hlx
        simp [generate_plot_slide, hlx]
      | ok xval =>
        right
        simp [generate_plot_slide, hlx, hasKey_false_getItem hobj hy]
  have hrs : ∃ k, renderSlideWith Solution.generate_list_slide env d =
      Except.error (.keyError k) := by
    rcases hplot_err with hpe | hpe
    · exact ⟨"x-label",
        by rw [renderSlide_plot ht hplt httl, hdat, pyBind_ok, hconf]; exact hpe⟩
    · exact ⟨"y-label",
        by rw [renderSlide_plot ht hplt httl, hdat, pyBind_ok, hconf]; exact hpe⟩
  obtain ⟨k, hrsk⟩ := hrs
  obtain ⟨e2, hb⟩ := buildSlides_member_error hd hrsk
  have hgen : Solution.generatePresentation env config = Except.error e2 := by
    simp [Solution.generatePresentation, generatePresentationWith, hp, hi, hb]
  exact ⟨hplot_err, ⟨e2, hgen⟩,
    by simp [Solution.savedOutput, hgen, Except.toOption]⟩

/-- Witness for C9: the plot descriptor without a `configuration`
mapping aborts the run with nothing written. -/
theorem plot_missing_label_aborts_witness :
    Solution.savedOutput envW configPlotW = none :=
  (plot_missing_label_aborts envW configPlotW (.arr [descPlotW]) [descPlotW]
    descPlotW (.str "plot") (.str "P") (.obj []) ([0, 1, 2], [10, 20, 30])
    rfl rfl (List.mem_cons_self _ _) rfl rfl rfl rfl rfl rfl
    (Or.inl rfl)).2.2

/-- The two list loops succeed on exactly the same inputs, with the
same paragraphs: `Solution` validates what `Task1` indexes. -/
theorem addParagraphs_agree : ∀ (xs : List JsonVal) (ps : List Paragraph),
    Solution.addParagraphs xs = .ok ps ↔ Task1.addParagraphs xs = .ok ps := by
  intro xs
  induction xs with
  | nil => intro ps; simp [Solution.addParagraphs, Task1.addParagraphs]
  | cons a rest ih =>
    intro ps
    cases hta : a.getItem "text" with
    | error e =>
      constructor
      · intro hsol
        exfalso
        cases hc : (!a.isObj || !(a.hasKey "level") || !(a.hasKey "text")) with
        | true => simp [Solution.addParagraphs, hc] at hsol
        | false =>
          simp only [Bool.or_eq_false_iff, Bool.not_eq_false'] at hc
          rw [hasKey_getItem hc.2 JsonVal.null] at hta
          cases hta
      · intro htask
        exfalso
        simp [Task1.addParagraphs, hta] at htask
    | ok tval =>
      cases hla : a.getItem "level" with
      | error e =>
        constructor
        · intro hsol
          exfalso
          cases hc : (!a.isObj || !(a.hasKey "level") || !(a.hasKey "text")) with
          | true => simp [Solution.addParagraphs, hc] at hsol
          | false =>
            simp only [Bool.or_eq_false_iff, Bool.not_eq_false'] at hc
            rw [hasKey_getItem hc.1.2 JsonVal.null] at hla
            cases hla
        · intro htask
          exfalso
          simp [Task1.addParagraphs, hta, hla] at htask
      | ok lval =>
        have hst := getItem_ok_spec JsonVal.null hta
        have hsl := getItem_ok_spec JsonVal.null hla
        have hc : (!a.isObj || !(a.hasKey "level") || !(a.hasKey "text")) =
            false := by
          simp [hst.1, hst.2.1, hsl.2.1]
        simp only [Solution.addParagraphs, Task1.addParagraphs, hc, hta, hla,
          pyBind_ok, Bool.false_eq_true, if_false]
        cases hsr : Solution.addParagraphs rest with
        | error e =>
          cases htr : Task1.addParagraphs rest with
          | error e2 => simp
          | ok qs =>
            have h1 := (ih qs).mpr htr
            rw [hsr] at h1
            cases h1
        | ok qs =>
          have htr := (ih qs).mp hsr
          rw [htr]

/-- The two list-slide renderers succeed on exactly the same inputs
with the same slide. -/
theorem generate_list_slide_agree (titleText items : JsonVal) (s : Slide) :
    Solution.generate_list_slide titleText items = .ok s ↔
    Task1.generate_list_slide titleText items = .ok s := by
  unfold Solution.generate_list_slide Task1.generate_list_slide
  cases hit : pyIter items with
  | error e => simp
  | ok xs =>
    rw [pyBind_ok, pyBind_ok]
    cases hsp : Solution.addParagraphs xs with
    | error e =>
      cases htp : Task1.addParagraphs xs with
      | error e2 => simp
      | ok qs =>
        have h1 := (addParagraphs_agree xs qs).mpr htp
        rw [hsp] at h1
        cases h1
    | ok qs =>
      rw [(addParagraphs_agree xs qs).mp hsp]

/-- The two dispatchers succeed on exactly the same descriptor with
the same slide: every branch but `list` is shared code. -/
theorem renderSlide_agree (env : Env) (d : JsonVal) (s : Slide) :
    renderSlideWith Solution.generate_list_slide env d = .ok s ↔
    renderSlideWith Task1.generate_list_slide env d = .ok s := by
  unfold renderSlideWith
  cases ht : d.getItem "type" with
  | error e => simp
  | ok t =>
    rw [pyBind_ok, pyBind_ok]
    cases httl : d.getItem "title" with
    | error e => simp
    | ok ttl =>
      rw [pyBind_ok, pyBind_ok]
      cases hb1 : t.isStr "title" with
      | true => simp [hb1]
      | false =>
        cases hb2 : t.isStr "text" with
        | true => simp [hb1, hb2]
        | false =>
          cases hb3 : t.isStr "list" with
          | true =>
            simp only [hb1, hb2, hb3, Bool.false_eq_true, if_false, if_true]
            exact generate_list_slide_agree ttl
              (d.pyGet "content" (JsonVal.arr [])) s
          | false => simp [hb1, hb2, hb3]

/-- A success of the dispatch loop under one list renderer transfers
to another whose dispatcher succeeds on the same descriptors. -/
theorem buildSlides_mono {f g : JsonVal → JsonVal → Except PyErr Slide}
    {env : Env}
    (hfg : ∀ d s, renderSlideWith f env d = .ok s →
      renderSlideWith g env d = .ok s) :
    ∀ {ds : List JsonVal} {ss : List Slide},
      buildSlidesWith f env ds = .ok ss → buildSlidesWith g env ds = .ok ss := by
  intro ds
  induction ds with
  | nil => intro ss h; exact h
  | cons d rest ih =>
    intro ss h
    simp only [buildSlidesWith] at h ⊢
    cases hr : renderSlideWith f env d with
    | error e => rw [hr] at h; simp at h
    | ok s =>
      rw [hr, pyBind_ok] at h
      cases hb : buildSlidesWith f env rest with
      | error e => rw [hb] at h; simp at h
      | ok qs =>
        rw [hb, pyBind_ok] at h
        rw [hfg d s hr, pyBind_ok, ih hb, pyBind_ok]
        exact h

/-- Claim C10: on every configuration and world on which either
implementation succeeds, the `Solution` and the `Task1_PPTX_report`
`generate_presentation` produce the same sequence of slides — same
count, order, types, titles, texts, paragraph levels and picture
placements; they can differ only in which exception aborts a failing
run. -/
theorem solution_task1_agree (env : Env) (config : JsonVal)
    (slides : List Slide) :
    Solution.generatePresentation env config = Except.ok slides ↔
    Task1.generatePresentation env config = Except.ok slides := by
  unfold Solution.generatePresentation Task1.generatePresentation
    generatePresentationWith
  cases hp : config.getItem "presentation" with
  | error e => simp
  | ok pres =>
    rw [pyBind_ok, pyBind_ok]
    cases hi : pyIter pres with
    | error e => simp
    | ok descs =>
      rw [pyBind_ok, pyBind_ok]
      constructor
      · exact buildSlides_mono fun d s => (renderSlide_agree env d s).mp
      · exact buildSlides_mono fun d s => (renderSlide_agree env d s).mpr

/-- Witness for C10: the `Task1_PPTX_report` variant renders `configW`
to the same two slides the `Solution` variant produces. -/
theorem solution_task1_agree_witness :
    Task1.generatePresentation envW configW = Except.ok slidesW :=
  (solution_task1_agree envW configW slidesW).mp rfl
